import Mathlib

set_option maxRecDepth 4000

/-!
Verification development for the `dive` repository slice consisting of
`src/scripts/openai_example.py` (a tool-calling conversation script against a
chat-completions API) and
`src/examples/workflows/context_example/generate_content.py` (an external
content-generating program reading workflow globals from the environment).

The Python sources are shallowly embedded below: dictionaries become
structures, JSON values become an inductive type, the Python standard
library's `json.loads` / `json.dumps(..., indent=2)` are modelled as
executable Lean functions, and partiality (an unguarded index, a parse
failure) becomes `Option`.
-/

/-- A brace character as it appears in text, kept as named strings. -/
def lbrace : String := "\x7b"

def rbrace : String := "\x7d"

def lbraceChar : Char := Char.ofNat 123

def rbraceChar : Char := Char.ofNat 125

/-! ## Embedding of `src/scripts/openai_example.py` -/

/-- A tool call surfaced by the model API: `id`, function name and raw
JSON-encoded arguments (`tool_call.id`, `.function.name`, `.function.arguments`). -/
structure ToolCall where
  id : String
  functionName : String
  arguments : String
deriving DecidableEq, Repr

/-- A chat message as the script builds and receives them: a role string,
optional text content, optional tool calls (assistant messages) and an
optional `tool_call_id` (tool messages). -/
structure ChatMessage where
  role : String
  content : Option String
  toolCalls : Option (List ToolCall)
  toolCallId : Option String
deriving DecidableEq, Repr

/-- Schema of one declared parameter, e.g. `"query": {"type": "string"}`. -/
structure PropSchema where
  type : String
deriving DecidableEq, Repr

/-- The `parameters` JSON-schema object of a tool definition. -/
structure ParamSchema where
  type : String
  properties : List (String × PropSchema)
  required : List String
  additionalProperties : Bool
deriving DecidableEq, Repr

/-- The `function` part of a tool definition. -/
structure FunctionDef where
  name : String
  description : String
  parameters : ParamSchema
  strict : Bool
deriving DecidableEq, Repr

/-- One entry of the script's `tools` list. -/
structure ToolDef where
  type : String
  function : FunctionDef
deriving DecidableEq, Repr

/-- The `GoogleSearch` tool definition, transliterated from the `tools`
literal in `openai_example.py` lines 6-23. -/
def googleSearchTool : ToolDef :=
  { type := "function"
    function :=
      { name := "GoogleSearch"
        description := "Search Google for the provided query."
        parameters :=
          { type := "object"
            properties := [("query", { type := "string" })]
            required := ["query"]
            additionalProperties := false }
        strict := true } }

/-- The script's `tools` list. -/
def tools : List ToolDef := [googleSearchTool]

/-- The script's initial `messages` list (line 25). -/
def initialMessages : List ChatMessage :=
  [{ role := "user"
     content := some "How tall is Mt. St. Helens?"
     toolCalls := none
     toolCallId := none }]

/-- A request to `client.chat.completions.create`: the keyword arguments the
script actually passes.  `tools` and `toolChoice` are `none` when the script
omits the keyword entirely. -/
structure ChatRequest where
  model : String
  messages : List ChatMessage
  tools : Option (List ToolDef)
  toolChoice : Option String
deriving DecidableEq, Repr

/-- The first model invocation (lines 27-32): full message log, the tool
schemas, and `tool_choice="required"`. -/
def firstRequest : ChatRequest :=
  { model := "gpt-4o"
    messages := initialMessages
    tools := some tools
    toolChoice := some "required" }

/-- `choice.message.tool_calls[0]` (line 36): `none` models the Python crash
when `tool_calls` is `None` (attribute access on `None`) or empty (index out
of range); otherwise the first element. -/
def firstToolCall (m : ChatMessage) : Option ToolCall :=
  m.toolCalls.bind List.head?

/-- The tool-result message the script appends (lines 44-49): role `tool`,
the originating call's id, and the hard-coded dispatch result string. -/
def toolResultMessage (tc : ToolCall) : ChatMessage :=
  { role := "tool"
    content := some "9,033 feet"
    toolCalls := none
    toolCallId := some tc.id }

/-- The message log after the script's appends (lines 43-49): the assistant
response followed by one tool message for `tool_calls[0]`.  `none` when the
unguarded index on line 36 crashes the script before any append. -/
def messagesAfterTurn (resp : ChatMessage) : Option (List ChatMessage) :=
  (firstToolCall resp).map
    (fun tc => initialMessages ++ [resp, toolResultMessage tc])

/-- The second model invocation (lines 51-54): only `model` and `messages`
are passed; no `tools`, no `tool_choice`. -/
def secondRequest (resp : ChatMessage) : Option ChatRequest :=
  (messagesAfterTurn resp).map
    (fun ms =>
      { model := "gpt-4o"
        messages := ms
        tools := none
        toolChoice := none })

/-- The messages the turn appended to the log (everything past the initial
log), restricted to the tool role. -/
def appendedToolRole (resp : ChatMessage) : Option (List ChatMessage) :=
  (messagesAfterTurn resp).map
    (fun l => (l.drop initialMessages.length).filter (fun m => m.role == "tool"))

/-- Number of tool calls carried by an assistant message (`0` when the field
is absent). -/
def toolCallCount (m : ChatMessage) : Nat :=
  (m.toolCalls.getD []).length

/-- Strictness condition of the spec: `strict = true` forces
`additionalProperties = false` and every declared property listed in
`required`. -/
def strictOk (t : ToolDef) : Bool :=
  !t.function.strict ||
    (t.function.parameters.additionalProperties == false &&
      t.function.parameters.properties.all
        (fun p => t.function.parameters.required.contains p.1))

/-! ## JSON values, `json.dumps(..., indent=2)` and `json.loads`

`generate_content.py` uses the Python standard library's `json` module; the
relevant behaviour (object/array/string/integer parsing with Python dict
semantics for duplicate keys, and `ensure_ascii` serialization with two-space
indentation) is embedded executably.  Floating-point numbers are outside the
model: the parser rejects them. -/

mutual
inductive Json where
  | null
  | bool (b : Bool)
  | num (n : Int)
  | str (s : String)
  | arr (elems : JsonItems)
  | obj (members : JsonMembers)
inductive JsonItems where
  | nil
  | cons (hd : Json) (tl : JsonItems)
inductive JsonMembers where
  | nil
  | cons (key : String) (val : Json) (tl : JsonMembers)
end

/-- Python truthiness (`if globals_data:`) of a JSON value. -/
def jsonTruthy : Json → Bool
  | .null => false
  | .bool b => b
  | .num n => !(n == 0)
  | .str s => !(s == "")
  | .arr .nil => false
  | .arr (.cons _ _) => true
  | .obj .nil => false
  | .obj (.cons _ _ _) => true

/-- Lowercase hex digit, as Python's `\uXXXX` escapes print them. -/
def hexDigitChar (n : Nat) : Char :=
  if n < 10 then Char.ofNat (48 + n) else Char.ofNat (87 + n)

/-- Four lowercase hex digits of a code unit. -/
def hex4 (n : Nat) : List Char :=
  [hexDigitChar (n / 4096 % 16), hexDigitChar (n / 256 % 16),
   hexDigitChar (n / 16 % 16), hexDigitChar (n % 16)]

/-- `ensure_ascii` escaping of one character, as in CPython's
`py_encode_basestring_ascii`. -/
def escapeChar (c : Char) : List Char :=
  if c = '\\' then ['\\', '\\']
  else if c = '\"' then ['\\', '\"']
  else if 32 ≤ c.toNat ∧ c.toNat ≤ 126 then [c]
  else if c.toNat = 8 then ['\\', 'b']
  else if c.toNat = 9 then ['\\', 't']
  else if c.toNat = 10 then ['\\', 'n']
  else if c.toNat = 12 then ['\\', 'f']
  else if c.toNat = 13 then ['\\', 'r']
  else if c.toNat < 65536 then '\\' :: 'u' :: hex4 c.toNat
  else
    ('\\' :: 'u' :: hex4 (55296 + (c.toNat - 65536) / 1024)) ++
      ('\\' :: 'u' :: hex4 (56320 + (c.toNat - 65536) % 1024))

/-- A JSON string literal with surrounding quotes. -/
def escapeString (s : String) : String :=
  "\"" ++ String.mk ((s.data.map escapeChar).flatten) ++ "\""

/-- Python's `str` of an `int`, as `json.dumps` prints integers. -/
def intStr (i : Int) : String :=
  if i < 0 then "-" ++ Nat.repr i.natAbs else Nat.repr i.natAbs

/-- Indentation prefix at nesting level `lvl` for `indent=2`. -/
def pad (lvl : Nat) : String := String.mk (List.replicate (2 * lvl) ' ')

mutual
def dumpsVal : Json → Nat → String
  | .null, _ => "null"
  | .bool true, _ => "true"
  | .bool false, _ => "false"
  | .num n, _ => intStr n
  | .str s, _ => escapeString s
  | .arr .nil, _ => "[]"
  | .arr (.cons x xs), lvl =>
      "[\n" ++ pad (lvl + 1) ++ dumpsVal x (lvl + 1) ++ dumpsItems xs (lvl + 1)
        ++ "\n" ++ pad lvl ++ "]"
  | .obj .nil, _ => lbrace ++ rbrace
  | .obj (.cons k v kvs), lvl =>
      lbrace ++ "\n" ++ pad (lvl + 1) ++ escapeString k ++ ": " ++ dumpsVal v (lvl + 1)
        ++ dumpsMembers kvs (lvl + 1) ++ "\n" ++ pad lvl ++ rbrace
def dumpsItems : JsonItems → Nat → String
  | .nil, _ => ""
  | .cons x xs, lvl => ",\n" ++ pad lvl ++ dumpsVal x lvl ++ dumpsItems xs lvl
def dumpsMembers : JsonMembers → Nat → String
  | .nil, _ => ""
  | .cons k v kvs, lvl =>
      ",\n" ++ pad lvl ++ escapeString k ++ ": " ++ dumpsVal v lvl ++ dumpsMembers kvs lvl
end

/-- `json.dumps(v, indent=2)`. -/
def jsonDumps2 (v : Json) : String := dumpsVal v 0

/-- Insertion with Python `dict` semantics: an existing key keeps its
position but takes the new value; a new key is appended. -/
def membersInsert : JsonMembers → String → Json → JsonMembers
  | .nil, k, v => .cons k v .nil
  | .cons k0 v0 tl, k, v =>
      if k0 = k then .cons k0 v tl else .cons k0 v0 (membersInsert tl k v)

/-- Append one element at the end of a JSON array under construction. -/
def itemsAppend : JsonItems → Json → JsonItems
  | .nil, v => .cons v .nil
  | .cons x xs, v => .cons x (itemsAppend xs v)

/-- JSON whitespace (space, tab, newline, carriage return). -/
def isJsonWs (c : Char) : Bool :=
  c.toNat = 32 || c.toNat = 9 || c.toNat = 10 || c.toNat = 13

def skipWs : List Char → List Char
  | [] => []
  | c :: cs => if isJsonWs c then skipWs cs else c :: cs

/-- Value of one hex digit, either case. -/
def hexVal (c : Char) : Option Nat :=
  if 48 ≤ c.toNat ∧ c.toNat ≤ 57 then some (c.toNat - 48)
  else if 97 ≤ c.toNat ∧ c.toNat ≤ 102 then some (c.toNat - 87)
  else if 65 ≤ c.toNat ∧ c.toNat ≤ 70 then some (c.toNat - 55)
  else none

/-- Combine four hex digits into a code unit. -/
def hex4Val (a b c d : Char) : Option Nat :=
  match hexVal a, hexVal b, hexVal c, hexVal d with
  | some x, some y, some z, some w => some (x * 4096 + y * 256 + z * 16 + w)
  | _, _, _, _ => none

/-- Body of a JSON string after its opening quote: the decoded characters and
the remainder after the closing quote.  Escapes are decoded as `json.loads`
does, including surrogate-pair combination for `\uXXXX` escapes; raw control
characters are rejected (strict mode). -/
def parseStringBody (fuel : Nat) (cs : List Char) : Option (List Char × List Char) :=
  match fuel with
  | 0 => none
  | f + 1 =>
    match cs with
    | [] => none
    | c :: cs =>
      if c = '\"' then some ([], cs)
      else if c = '\\' then
        match cs with
        | [] => none
        | e :: cs2 =>
          if e = '\"' then (parseStringBody f cs2).map (fun r => ('\"' :: r.1, r.2))
          else if e = '\\' then (parseStringBody f cs2).map (fun r => ('\\' :: r.1, r.2))
          else if e = '/' then (parseStringBody f cs2).map (fun r => ('/' :: r.1, r.2))
          else if e = 'b' then (parseStringBody f cs2).map (fun r => (Char.ofNat 8 :: r.1, r.2))
          else if e = 'f' then (parseStringBody f cs2).map (fun r => (Char.ofNat 12 :: r.1, r.2))
          else if e = 'n' then (parseStringBody f cs2).map (fun r => (Char.ofNat 10 :: r.1, r.2))
          else if e = 'r' then (parseStringBody f cs2).map (fun r => (Char.ofNat 13 :: r.1, r.2))
          else if e = 't' then (parseStringBody f cs2).map (fun r => (Char.ofNat 9 :: r.1, r.2))
          else if e = 'u' then
            match cs2 with
            | h1 :: h2 :: h3 :: h4 :: cs3 =>
              match hex4Val h1 h2 h3 h4 with
              | none => none
              | some n =>
                if 55296 ≤ n ∧ n ≤ 56319 then
                  match cs3 with
                  | '\\' :: 'u' :: g1 :: g2 :: g3 :: g4 :: cs4 =>
                    match hex4Val g1 g2 g3 g4 with
                    | some m =>
                      if 56320 ≤ m ∧ m ≤ 57343 then
                        (parseStringBody f cs4).map
                          (fun r =>
                            (Char.ofNat (65536 + (n - 55296) * 1024 + (m - 56320)) :: r.1, r.2))
                      else (parseStringBody f cs4).map
                        (fun r => (Char.ofNat n :: Char.ofNat m :: r.1, r.2))
                    | none => none
                  | _ => (parseStringBody f cs3).map (fun r => (Char.ofNat n :: r.1, r.2))
                else (parseStringBody f cs3).map (fun r => (Char.ofNat n :: r.1, r.2))
            | _ => none
          else none
      else if c.toNat < 32 then none
      else (parseStringBody f cs).map (fun r => (c :: r.1, r.2))

/-- Split off a leading run of decimal digits. -/
def takeDigits : List Char → List Char × List Char
  | [] => ([], [])
  | c :: cs =>
    if 48 ≤ c.toNat ∧ c.toNat ≤ 57 then
      ((c :: (takeDigits cs).1), (takeDigits cs).2)
    else ([], c :: cs)

def digitsToNat (ds : List Char) : Nat :=
  List.foldl (fun a c => a * 10 + (c.toNat - 48)) 0 ds

/-- Whether the remaining input continues a number into float territory,
which the model does not cover. -/
def startsFloat : List Char → Bool
  | c :: _ => c = '.' || c = 'e' || c = 'E'
  | [] => false

/-- Integer literal (after an optional leading minus sign already consumed).
Leading zeros are rejected per the JSON grammar; fractional/exponent parts
mean a float and fall outside the model. -/
def parseIntTail (neg : Bool) (cs : List Char) : Option (Json × List Char) :=
  match takeDigits cs with
  | ([], _) => none
  | (d :: ds, rest) =>
    if d.toNat = 48 ∧ ds ≠ [] then none
    else if startsFloat rest then none
    else
      some (.num (if neg then -(Int.ofNat (digitsToNat (d :: ds)))
                  else Int.ofNat (digitsToNat (d :: ds))), rest)

mutual
def parseVal (fuel : Nat) (cs : List Char) : Option (Json × List Char) :=
  match fuel with
  | 0 => none
  | f + 1 =>
    match skipWs cs with
    | [] => none
    | c :: rest =>
      if c = '\"' then
        (parseStringBody (rest.length + 1) rest).map (fun r => (.str (String.mk r.1), r.2))
      else if c = lbraceChar then
        match skipWs rest with
        | [] => none
        | d :: rest2 =>
          if d = rbraceChar then some (.obj .nil, rest2)
          else parseMembers f (d :: rest2) .nil
      else if c = '[' then
        match skipWs rest with
        | [] => none
        | d :: rest2 =>
          if d = ']' then some (.arr .nil, rest2)
          else parseItems f (d :: rest2) .nil
      else if c = 't' then
        match rest with
        | 'r' :: 'u' :: 'e' :: r => some (.bool true, r)
        | _ => none
      else if c = 'f' then
        match rest with
        | 'a' :: 'l' :: 's' :: 'e' :: r => some (.bool false, r)
        | _ => none
      else if c = 'n' then
        match rest with
        | 'u' :: 'l' :: 'l' :: r => some (.null, r)
        | _ => none
      else if c = '-' then parseIntTail true rest
      else if 48 ≤ c.toNat ∧ c.toNat ≤ 57 then parseIntTail false (c :: rest)
      else none
def parseMembers (fuel : Nat) (cs : List Char) (acc : JsonMembers) :
    Option (Json × List Char) :=
  match fuel with
  | 0 => none
  | f + 1 =>
    match cs with
    | '\"' :: rest =>
      match parseStringBody (rest.length + 1) rest with
      | none => none
      | some (kcs, afterKey) =>
        match skipWs afterKey with
        | ':' :: afterColon =>
          match parseVal f afterColon with
          | none => none
          | some (v, afterVal) =>
            match skipWs afterVal with
            | ',' :: afterComma =>
              parseMembers f (skipWs afterComma) (membersInsert acc (String.mk kcs) v)
            | d :: afterBrace =>
              if d = rbraceChar then
                some (.obj (membersInsert acc (String.mk kcs) v), afterBrace)
              else none
            | [] => none
        | _ => none
    | _ => none
def parseItems (fuel : Nat) (cs : List Char) (acc : JsonItems) :
    Option (Json × List Char) :=
  match fuel with
  | 0 => none
  | f + 1 =>
    match parseVal f cs with
    | none => none
    | some (v, afterVal) =>
      match skipWs afterVal with
      | ',' :: afterComma => parseItems f afterComma (itemsAppend acc v)
      | ']' :: rest => some (.arr (itemsAppend acc v), rest)
      | _ => none
end

/-- `json.loads`: parse one JSON document, requiring the whole input to be
consumed up to trailing whitespace.  `none` models a raised
`json.JSONDecodeError`. -/
def jsonLoads (s : String) : Option Json :=
  match parseVal (2 * s.length + 4) s.data with
  | some (v, rest) => if (skipWs rest).isEmpty then some v else none
  | none => none

/-! ## Embedding of `src/examples/workflows/context_example/generate_content.py` -/

/-- The f-string base text (line 15), with the `datetime.now().isoformat()`
timestamp as a parameter. -/
def gcBaseText (now : String) : String :=
  "Generated at " ++ now ++ " by external Python script"

/-- Lines 7-10: read `DIVE_GLOBALS`; a missing or empty (falsy) value leaves
`globals_data` as the empty dict, otherwise `json.loads` parses it (`none`
models the uncaught decode error aborting the script). -/
def gcGlobalsData (dive : Option String) : Option Json :=
  match dive with
  | none => some (Json.obj .nil)
  | some s => if s = "" then some (Json.obj .nil) else jsonLoads s

/-- The `text` field after the conditional append of lines 18-20: the globals
section is added only when `globals_data` is truthy. -/
def gcText (g : Json) (now : String) : String :=
  if jsonTruthy g then
    gcBaseText now ++ "\nWorkflow globals: " ++ jsonDumps2 g
  else gcBaseText now

/-- The `content` dict (lines 13-20) produced by a run that sees `dive` in
`DIVE_GLOBALS`; `none` when `json.loads` raises. -/
def gcContent (dive : Option String) (now : String) : Option Json :=
  (gcGlobalsData dive).map
    (fun g =>
      Json.obj (.cons "type" (.str "text") (.cons "text" (.str (gcText g now)) .nil)))

/-- What the script writes to standard output (line 23):
`print(json.dumps(content, indent=2))`, so the serialized object plus a
trailing newline; `none` when the script aborts before printing. -/
def gcStdout (dive : Option String) (now : String) : Option String :=
  (gcContent dive now).map (fun c => jsonDumps2 c ++ "\n")

/-- Process exit code: `0` on a completed run, nonzero (`1`) when the
uncaught `json.JSONDecodeError` aborts the script. -/
def gcExitCode (dive : Option String) (now : String) : Nat :=
  match gcContent dive now with
  | some _ => 0
  | none => 1

/-- The whole run as a function of the process environment: the script reads
`os.getenv("DIVE_GLOBALS")` and consumes no other input channel (no stdin,
no argv, no other variable). -/
def generateContentRun (env : String → Option String) (now : String) : Option String :=
  gcStdout (env "DIVE_GLOBALS") now

/-! ## Substring matching (for statements about produced text) -/

/-- Whether `pat` is a prefix of `s` (character lists). -/
def leadsWith : List Char → List Char → Bool
  | [], _ => true
  | _ :: _, [] => false
  | c :: cs, d :: ds => c == d && leadsWith cs ds

/-- Whether `pat` occurs contiguously inside `s` (character lists). -/
def hasSub (pat : List Char) : List Char → Bool
  | [] => leadsWith pat []
  | c :: cs => leadsWith pat (c :: cs) || hasSub pat cs

/-- Whether string `pat` occurs contiguously inside string `s`. -/
def strContains (s pat : String) : Bool := hasSub pat.data s.data

/-! ## ConversationDriver loop

Modelled from the spec: the repository slice under `src/` has no
ConversationDriver implementation (the script is a single unrolled turn), so
the looping driver of spec section 4.1 — model invocation, tool dispatch,
result re-injection, a turn counter and the `max_turns` guard raising
LoopLimitExceeded with the log preserved — is modelled here from the spec's
words, with the model API and the dispatcher as injected collaborators. -/

/-- Modelled from the spec: outcome of `ConversationDriver.run` — either the
tool-call-free final message, or LoopLimitExceeded carrying the accumulated
log for inspection. -/
inductive DriverOutcome where
  | final (msg : ChatMessage)
  | loopLimitExceeded (log : List ChatMessage)
deriving DecidableEq, Repr

/-- Whether a model response contains at least one tool call. -/
def hasToolCalls (m : ChatMessage) : Bool :=
  match m.toolCalls with
  | some (_ :: _) => true
  | _ => false

/-- Modelled from the spec: one tool-role result message per tool call of the
assistant message, keyed by `tool_call_id`, in the originating order. -/
def dispatchResults (dispatch : ToolCall → String) (m : ChatMessage) : List ChatMessage :=
  (m.toolCalls.getD []).map
    (fun tc =>
      { role := "tool"
        content := some (dispatch tc)
        toolCalls := none
        toolCallId := some tc.id })

/-- Modelled from the spec: the driver loop of section 4.1.  `maxTurns` bounds
the number of model invocations; a response without tool calls is terminal;
otherwise the assistant message and its tool results are appended and the
loop re-enters; exhausting `maxTurns` yields LoopLimitExceeded with the log
accumulated so far. -/
def driverRun (model : List ChatMessage → ChatMessage) (dispatch : ToolCall → String)
    (maxTurns : Nat) (log : List ChatMessage) : DriverOutcome :=
  match maxTurns with
  | 0 => .loopLimitExceeded log
  | n + 1 =>
    let resp := model log
    if hasToolCalls resp then
      driverRun model dispatch n (log ++ resp :: dispatchResults dispatch resp)
    else .final resp

/-! ## Concrete example data for witnesses and counterexamples -/

/-- A model-issued tool call such as the first invocation returns. -/
def exampleCall : ToolCall :=
  { id := "call_1"
    functionName := "GoogleSearch"
    arguments := lbrace ++ "\"query\": \"Mt. St. Helens height\"" ++ rbrace }

/-- A second tool call with a distinct id. -/
def exampleCall2 : ToolCall :=
  { id := "call_2"
    functionName := "GoogleSearch"
    arguments := lbrace ++ "\"query\": \"Mt. St. Helens elevation\"" ++ rbrace }

/-- An assistant response carrying exactly one tool call. -/
def exampleResponse : ChatMessage :=
  { role := "assistant"
    content := none
    toolCalls := some [exampleCall]
    toolCallId := none }

/-- An assistant response carrying two tool calls. -/
def twoCallResponse : ChatMessage :=
  { role := "assistant"
    content := none
    toolCalls := some [exampleCall, exampleCall2]
    toolCallId := none }

/-- The compact context-channel payload of Scenario C. -/
def aliceEnv : String := lbrace ++ "\"user\":\"Alice\"" ++ rbrace

/-- The same payload with the default separator space. -/
def aliceSpaced : String := lbrace ++ "\"user\": \"Alice\"" ++ rbrace

/-- The indent-2 serialization `json.dumps({"user": "Alice"}, indent=2)`. -/
def alicePretty : String := lbrace ++ "\n  \"user\": \"Alice\"\n" ++ rbrace

/-- The parsed payload as a JSON value. -/
def aliceObj : Json := Json.obj (.cons "user" (.str "Alice") .nil)

/-- A fixed timestamp standing in for `datetime.now().isoformat()`. -/
def exampleNow : String := "2026-10-12T00:00:00"

/-- The text the generator produces under the Scenario C channel. -/
def aliceText : String :=
  gcBaseText exampleNow ++ "\nWorkflow globals: " ++ alicePretty

/-- The content block the generator produces under the Scenario C channel. -/
def aliceContent : Json :=
  Json.obj (.cons "type" (.str "text") (.cons "text" (.str aliceText) .nil))

/-- A model collaborator that always requests a tool. -/
def constModel : List ChatMessage → ChatMessage := fun _ => exampleResponse

/-- A dispatcher standing in for the search tool. -/
def constDispatch : ToolCall → String := fun _ => "9,033 feet"

/-- An environment exposing only `DIVE_GLOBALS`. -/
def envA : String → Option String :=
  fun k => if k = "DIVE_GLOBALS" then some aliceEnv else none

/-- An environment agreeing with `envA` on `DIVE_GLOBALS` but differing
everywhere else. -/
def envB : String → Option String :=
  fun k => if k = "DIVE_GLOBALS" then some aliceEnv else some "unrelated"

/-! ## Claim theorems -/

/-- C1 (counterexample): on an assistant response carrying two tool calls the
script appends exactly one tool-role message (for `tool_calls[0]` only), so
the count of appended tool-role messages does not equal the count of
tool_calls, and the second call's id never receives a result. -/
theorem c1_counterexample :
    ¬ ((appendedToolRole twoCallResponse).map List.length
        = some (toolCallCount twoCallResponse)) := by
  decide

/-- C1 (amended): when the preceding assistant message carries exactly one
tool call, the turn appends exactly one tool-role message — so the counts
agree — and that message carries the originating call's id. -/
theorem c1_single_call (resp : ChatMessage) (tc : ToolCall)
    (h : resp.toolCalls = some [tc]) (hrole : resp.role = "assistant") :
    appendedToolRole resp = some [toolResultMessage tc] ∧
    (appendedToolRole resp).map List.length = some (toolCallCount resp) ∧
    (toolResultMessage tc).toolCallId = some tc.id := by
  have hfirst : firstToolCall resp = some tc := by
    simp [firstToolCall, h]
  refine ⟨?_, ?_, rfl⟩ <;>
    simp [appendedToolRole, messagesAfterTurn, hfirst, initialMessages,
      toolResultMessage, toolCallCount, h, List.filter, hrole]

/-- C1 witness: the amended statement evaluated on the one-call response. -/
theorem c1_single_call_witness :
    appendedToolRole exampleResponse = some [toolResultMessage exampleCall] ∧
    (appendedToolRole exampleResponse).map List.length
      = some (toolCallCount exampleResponse) ∧
    (toolResultMessage exampleCall).toolCallId = some exampleCall.id :=
  c1_single_call exampleResponse exampleCall rfl rfl

/-- C2 (counterexample): it is not the case that every model invocation
passes the tool schemas: the follow-up invocation issued after the tool
result (lines 51-54) passes no `tools` at all, as the concrete one-call
response shows. -/
theorem c2_counterexample :
    ¬ (firstRequest.tools = some tools ∧
        ∀ resp req, secondRequest resp = some req → req.tools = some tools) := by
  intro h
  have h2 := h.2 exampleResponse
    { model := "gpt-4o"
      messages := initialMessages ++ [exampleResponse, toolResultMessage exampleCall]
      tools := none
      toolChoice := none } rfl
  exact Option.noConfusion h2

/-- C2 (amended): every model invocation passes the full message log; the
first invocation additionally passes the tool schemas (with the required
tool-choice policy), while the follow-up invocation after the tool result
passes the updated full log but no tool schemas and no tool choice. -/
theorem c2_requests (resp : ChatMessage) (tc : ToolCall)
    (h : firstToolCall resp = some tc) :
    firstRequest.messages = initialMessages ∧
    firstRequest.tools = some tools ∧
    firstRequest.toolChoice = some "required" ∧
    secondRequest resp = some
      { model := "gpt-4o"
        messages := initialMessages ++ [resp, toolResultMessage tc]
        tools := none
        toolChoice := none } := by
  refine ⟨rfl, rfl, rfl, ?_⟩
  simp [secondRequest, messagesAfterTurn, h]

/-- C2 witness: the amended statement evaluated on the one-call response. -/
theorem c2_requests_witness :
    firstRequest.messages = initialMessages ∧
    firstRequest.tools = some tools ∧
    firstRequest.toolChoice = some "required" ∧
    secondRequest exampleResponse = some
      { model := "gpt-4o"
        messages := initialMessages ++ [exampleResponse, toolResultMessage exampleCall]
        tools := none
        toolChoice := none } :=
  c2_requests exampleResponse exampleCall rfl

/-- C3 (counterexample): with the context channel set to the compact JSON
`\x7b"user":"Alice"\x7d`, the produced content block's text holds the
indent-2 re-serialization, and neither the compact input string nor its
space-separated variant occurs verbatim in that text. -/
theorem c3_counterexample :
    gcContent (some aliceEnv) exampleNow = some aliceContent ∧
    strContains aliceText aliceEnv = false ∧
    strContains aliceText aliceSpaced = false := by
  exact ⟨rfl, by decide, by decide⟩

/-- C3 (amended): with the context channel set to `\x7b"user":"Alice"\x7d`,
the produced content block's text contains the indent-2 serialization of
that JSON object (the same key and value, reformatted by
`json.dumps(..., indent=2)`), as a `Workflow globals:` section. -/
theorem c3_amended :
    gcContent (some aliceEnv) exampleNow = some aliceContent ∧
    aliceText = gcBaseText exampleNow ++ "\nWorkflow globals: " ++ alicePretty ∧
    strContains aliceText alicePretty = true := by
  exact ⟨rfl, rfl, by decide⟩

/-- C4: running with the context entry absent and running with it set to the
empty JSON object behave identically: both runs succeed with the same
standard output, the produced text is exactly the base sentence with no
globals section, and in general the globals section is appended exactly when
the parsed globals value is truthy (non-empty). -/
theorem c4_absent_empty (now : String) :
    gcStdout none now = gcStdout (some (lbrace ++ rbrace)) now ∧
    gcContent none now = some (Json.obj (.cons "type" (.str "text")
      (.cons "text" (.str ("Generated at " ++ now ++ " by external Python script")) .nil))) ∧
    (∀ g : Json, jsonTruthy g = false → gcText g now = gcBaseText now) ∧
    (∀ g : Json, jsonTruthy g = true →
      gcText g now = gcBaseText now ++ "\nWorkflow globals: " ++ jsonDumps2 g) := by
  refine ⟨rfl, rfl, ?_, ?_⟩ <;> intro g hg <;> simp [gcText, hg]

/-- C4 witness: the equivalence and both branches of the globals-section
condition evaluated at concrete inputs. -/
theorem c4_absent_empty_witness :
    (gcStdout none exampleNow = gcStdout (some (lbrace ++ rbrace)) exampleNow) ∧
    (gcText (Json.obj .nil) exampleNow = gcBaseText exampleNow) ∧
    (gcText aliceObj exampleNow
      = gcBaseText exampleNow ++ "\nWorkflow globals: " ++ jsonDumps2 aliceObj) :=
  ⟨(c4_absent_empty exampleNow).1,
   (c4_absent_empty exampleNow).2.2.1 (Json.obj .nil) rfl,
   (c4_absent_empty exampleNow).2.2.2 aliceObj rfl⟩

/-- C5: the tool-role message appended after dispatching has exactly the
wire shape role `tool`, `tool_call_id` equal to the originating call's id,
string content, and no tool_calls field. -/
theorem c5_wire_shape (resp : ChatMessage) (tc : ToolCall)
    (h : firstToolCall resp = some tc) (hrole : resp.role = "assistant") :
    ∀ m ∈ (appendedToolRole resp).getD [],
      m.role = "tool" ∧ m.toolCallId = some tc.id ∧
        m.content = some "9,033 feet" ∧ m.toolCalls = none := by
  intro m hm
  have hlist : (appendedToolRole resp).getD [] = [toolResultMessage tc] := by
    simp [appendedToolRole, messagesAfterTurn, h, initialMessages,
      toolResultMessage, List.filter, hrole]
  rw [hlist] at hm
  simp at hm
  subst hm
  exact ⟨rfl, rfl, rfl, rfl⟩

/-- C5 witness: the wire shape evaluated on the one-call response. -/
theorem c5_wire_shape_witness :
    (toolResultMessage exampleCall).role = "tool" ∧
    (toolResultMessage exampleCall).toolCallId = some exampleCall.id ∧
    (toolResultMessage exampleCall).content = some "9,033 feet" ∧
    (toolResultMessage exampleCall).toolCalls = none :=
  c5_wire_shape exampleResponse exampleCall rfl rfl
    (toolResultMessage exampleCall) (by decide)

/-- C6: whenever the generator run completes (`content` is produced), the
content block is a JSON object whose `type` field is the string `"text"` and
whose `text` field is a string; standard output is exactly the indent-2
serialization of that one object followed by print's newline, and the exit
code is 0. -/
theorem c6_output_contract (dive : Option String) (now : String) (c : Json)
    (h : gcContent dive now = some c) :
    (∃ t : String,
      c = Json.obj (.cons "type" (.str "text") (.cons "text" (.str t) .nil))) ∧
    gcStdout dive now = some (jsonDumps2 c ++ "\n") ∧
    gcExitCode dive now = 0 := by
  refine ⟨?_, ?_, ?_⟩
  · unfold gcContent at h
    cases hg : gcGlobalsData dive with
    | none => rw [hg] at h; exact absurd h (by simp)
    | some g =>
      rw [hg] at h
      exact ⟨gcText g now, (Option.some_injective _ h).symm⟩
  · simp [gcStdout, h]
  · simp [gcExitCode, h]

/-- C6 witness: the output contract evaluated on the Scenario C run. -/
theorem c6_output_contract_witness :
    (∃ t : String, aliceContent
      = Json.obj (.cons "type" (.str "text") (.cons "text" (.str t) .nil))) ∧
    gcStdout (some aliceEnv) exampleNow = some (jsonDumps2 aliceContent ++ "\n") ∧
    gcExitCode (some aliceEnv) exampleNow = 0 :=
  c6_output_contract (some aliceEnv) exampleNow aliceContent rfl

/-- C7: every tool definition with `strict = true` has
`additionalProperties = false` and lists every declared property in
`required`; the GoogleSearch definition is in the list, is strict, and
satisfies the condition. -/
theorem c7_strict_schema :
    tools.all strictOk = true ∧
    googleSearchTool ∈ tools ∧
    googleSearchTool.function.strict = true ∧
    strictOk googleSearchTool = true := by
  refine ⟨by decide, by decide, rfl, by decide⟩

/-- C8: if every model response within the turn budget requests tools, the
driver ends in LoopLimitExceeded, and the outcome carries the accumulated
message log intact — in particular the initial messages are still a prefix
of it. -/
theorem c8_loop_limit (model : List ChatMessage → ChatMessage)
    (dispatch : ToolCall → String) (maxTurns : Nat) (init : List ChatMessage)
    (h : ∀ ms, hasToolCalls (model ms) = true) :
    ∃ log, driverRun model dispatch maxTurns init = .loopLimitExceeded log ∧
      init <+: log := by
  induction maxTurns generalizing init with
  | zero => exact ⟨init, rfl, List.prefix_refl _⟩
  | succ n ih =>
    obtain ⟨log, hrun, hpre⟩ :=
      ih (init ++ model init :: dispatchResults dispatch (model init))
    exact ⟨log, by simp [driverRun, h init, hrun],
      (List.prefix_append init _).trans hpre⟩

/-- C8 witness: a model collaborator that always requests a tool exhausts a
budget of three turns starting from the script's initial log. -/
theorem c8_loop_limit_witness :
    ∃ log, driverRun constModel constDispatch 3 initialMessages
        = .loopLimitExceeded log ∧
      initialMessages <+: log :=
  c8_loop_limit constModel constDispatch 3 initialMessages (fun _ => rfl)

/-- C9: the generator reads its workflow context exclusively from the
`DIVE_GLOBALS` environment entry: two environments agreeing on that single
entry produce identical runs, and the run is exactly the output computed
from that entry (no other input channel exists in the model). -/
theorem c9_only_dive_globals (env1 env2 : String → Option String) (now : String)
    (h : env1 "DIVE_GLOBALS" = env2 "DIVE_GLOBALS") :
    generateContentRun env1 now = generateContentRun env2 now ∧
    generateContentRun env1 now = gcStdout (env1 "DIVE_GLOBALS") now := by
  constructor
  · unfold generateContentRun
    rw [h]
  · rfl

/-- C9 witness: two environments differing everywhere except `DIVE_GLOBALS`
produce the same run. -/
theorem c9_only_dive_globals_witness :
    generateContentRun envA exampleNow = generateContentRun envB exampleNow ∧
    generateContentRun envA exampleNow = gcStdout (envA "DIVE_GLOBALS") exampleNow :=
  c9_only_dive_globals envA envB exampleNow rfl

/-- C10: the first request pins `tool_choice` to `"required"`, and the
unguarded `tool_calls[0]` access is defined (the script step produces a
result) exactly when the response carries at least one tool call: it is
undefined precisely when `tool_calls` is absent or empty, and then no
messages are appended at all. -/
theorem c10_unguarded_access :
    firstRequest.toolChoice = some "required" ∧
    (∀ m : ChatMessage,
      firstToolCall m = none ↔ (m.toolCalls = none ∨ m.toolCalls = some [])) ∧
    (∀ m : ChatMessage,
      (messagesAfterTurn m).isSome = (firstToolCall m).isSome) := by
  refine ⟨rfl, ?_, ?_⟩
  · intro m
    cases hm : m.toolCalls with
    | none => simp [firstToolCall, hm]
    | some l => cases l <;> simp [firstToolCall, hm]
  · intro m
    cases hf : firstToolCall m <;> simp [messagesAfterTurn, hf]
